import Mathlib

/-!
Verification of the content-acquisition, deduplication, translation and
session-sequencing core of `src/main.py` (a Telegram daily-content bot).

The Python code is shallowly embedded: strings are Lean `String`s, the
SQLite `sent_articles` table is a list of records, every external call
(Gemini translation, RSS feed retrieval, YouTube search, SQLite I/O) is a
parameter of type `Except Unit _` standing for "the call either raised or
returned this value".  Python string primitives (`strip`, `split('\n')`,
`lower`, slicing, `in`) are re-implemented over `List Char` so that every
definition evaluates inside the kernel.
-/

namespace DadNews

/-! ### Python string primitives -/

/-- Whitespace set of Python `str.strip` (space, tab, newline, carriage
return, vertical tab, form feed). -/
def isPyWs (c : Char) : Bool :=
  c = ' ' || c = '\t' || c = '\n' || c = '\r' || c = '\x0b' || c = '\x0c'

/-- Remove leading and trailing Python whitespace from a character list. -/
def trimChars (l : List Char) : List Char :=
  ((l.dropWhile isPyWs).reverse.dropWhile isPyWs).reverse

/-- Python `s.strip()`. -/
def pyStrip (s : String) : String := ⟨trimChars s.data⟩

/-- Split a character list at every `'\n'`; mirrors Python `s.split('\n')`
(the result is never empty, and `''.split('\n') == ['']`). -/
def splitNl : List Char → List (List Char)
  | [] => [[]]
  | c :: cs =>
    if c = '\n' then [] :: splitNl cs
    else
      match splitNl cs with
      | [] => [[c]]
      | h :: t => (c :: h) :: t

/-- Python `s.split('\n')`. -/
def pySplitLines (s : String) : List String := (splitNl s.data).map (fun l => ⟨l⟩)

/-- Python `s.lower()` (ASCII case folding, which is all the denylists need). -/
def pyLower (s : String) : String := ⟨s.data.map Char.toLower⟩

/-- Python slicing `s[:n]`. -/
def pyTake (n : Nat) (s : String) : String := ⟨s.data.take n⟩

/-- Whether the first list is a leading segment of the second. -/
def leadsWith : List Char → List Char → Bool
  | [], _ => true
  | _ :: _, [] => false
  | a :: as, b :: bs => a = b && leadsWith as bs

/-- Whether `needle` occurs contiguously inside the second list. -/
def occursIn (needle : List Char) : List Char → Bool
  | [] => needle.isEmpty
  | b :: bs => leadsWith needle (b :: bs) || occursIn needle bs

/-- Python `needle in hay` on strings. -/
def containsSub (needle hay : String) : Bool := occursIn needle.data hay.data

/-- Python `s.split()` (split on whitespace runs, dropping empty pieces),
used by `search_youtube_video` as `self.current_content_context.split()`. -/
def pySplitWs (s : String) : List String :=
  ((s.data.splitOnP isPyWs).map (fun l => (⟨l⟩ : String))).filter
    (fun w => !(decide (w = "")))

/-! ### Deduplication ledger

`init_database` (src/main.py:123-145) creates table `sent_articles` with a
UNIQUE constraint on `article_hash`; the table is embedded as a list of
`SentRecord`s.  The hash is `hashlib.md5(f"{title}_{source}".encode())`
(src/main.py:150,161); per the spec's data model the 128-bit digest is
collision-free on distinct pre-images, so MD5 is embedded as the identity
on its pre-image string `title + "_" + source` — every collision that can
actually be analysed is a collision of the concatenation itself. -/

/-- One row of the `sent_articles` table. -/
structure SentRecord where
  article_hash : String
  title : String
  date_sent : String
  source : String
deriving DecidableEq

/-- Dedup key of an article: the keyed string `title + "_" + source`
(src/main.py:150,161, with the MD5 digest embedded as injective keying). -/
def fingerprint (title source : String) : String := title ++ "_" ++ source

/-- The SELECT inside `is_article_sent` (src/main.py:152-153): does any row
carry this article's hash? -/
def sent_query (db : List SentRecord) (title source : String) : Bool :=
  db.any (fun r => decide (r.article_hash = fingerprint title source))

/-- The `INSERT OR IGNORE` inside `mark_article_sent` (src/main.py:163-167):
under the UNIQUE constraint on `article_hash`, a row is appended exactly
when no row with the same hash exists, and a duplicate insert is a no-op
success. -/
def mark_sent (now : String) (db : List SentRecord) (title source : String) :
    List SentRecord :=
  if sent_query db title source then db
  else db ++ [⟨fingerprint title source, title, now, source⟩]

/-- `is_article_sent` (src/main.py:147-156) with its `try/except`:
the storage read either raised (`Except.error`) — in which case the
handler returns `False` — or yielded the table contents. -/
def is_article_sent (read : Except Unit (List SentRecord))
    (title source : String) : Bool :=
  match read with
  | .error _ => false
  | .ok db => sent_query db title source

/-- `mark_article_sent` (src/main.py:158-169) with its `try/except`:
if the storage write raised, the error is logged and swallowed and the
table is left as it was; otherwise the insert happens. -/
def mark_article_sent (raised : Bool) (now : String) (db : List SentRecord)
    (title source : String) : List SentRecord :=
  if raised then db else mark_sent now db title source

/-- Run a sequence of `mark_article_sent` calls (each a `(date, title,
source)` triple) against the table, oldest first. -/
def apply_marks (db : List SentRecord) :
    List (String × String × String) → List SentRecord
  | [] => db
  | (n, t, s) :: rest => apply_marks (mark_sent n db t s) rest

/-- Number of rows recorded for one fingerprint. -/
def count_fp (f : String) (db : List SentRecord) : Nat :=
  db.countP (fun r => decide (r.article_hash = f))

/-! ### Content filter -/

/-- Denylist of `should_filter_content` (src/main.py:243-247). -/
def filter_keywords : List String :=
  ["mystical", "supernatural", "paranormal", "ghost", "spirit", "haunted",
   "ufo", "alien", "conspiracy", "prophecy", "fortune telling", "astrology",
   "zodiac", "horoscope", "crystal", "energy", "aura", "chakra"]

/-- `should_filter_content` (src/main.py:241-250): case-insensitive
substring match of any denylisted keyword against `title + " " + summary`. -/
def should_filter_content (title summary : String) : Bool :=
  let text_to_check := pyLower (title ++ " " ++ summary)
  filter_keywords.any (fun keyword => containsSub keyword text_to_check)

/-! ### Translator adapter

`translate_to_hebrew` (src/main.py:252-313).  The Gemini call is the
black box: its outcome is the `gen : Except Unit String` parameter
(`Except.error` = the call raised somewhere inside the `try`, and the
`except` branch at src/main.py:310-313 returns the input unchanged;
`Except.ok raw` = the call returned text `raw`). -/

/-- Boilerplate markers stripped by the translator
(`unwanted_patterns`, src/main.py:282-289). -/
def unwanted_patterns : List String :=
  ["התרגום הוא:", "התרגום:", "בעברית:", "תרגום:", "או:", "אופציה"]

/-- A line is clean when it contains no boilerplate marker. -/
def line_is_clean (line : String) : Bool :=
  !(unwanted_patterns.any (fun pattern => containsSub pattern line))

/-- The `for line in lines: ... break` loop of src/main.py:295-299 with its
`clean_result = ""` accumulator: return the first stripped line that is
non-empty and clean, or `""` when the loop falls through. -/
def clean_loop : List String → String
  | [] => ""
  | l :: ls =>
    let line := pyStrip l
    if line ≠ "" ∧ line_is_clean line = true then line else clean_loop ls

/-- Post-processing applied to a successful Gemini response
(src/main.py:279-305): strip, split into lines, scan for the first clean
line, fall back to the stripped first line of the stripped response, then
wrap the result in RIGHT-TO-LEFT MARK characters (U+200F) on both sides
(the f-string at src/main.py:305). -/
def postProcessRaw (raw : String) : String :=
  let result := pyStrip raw
  let lines := pySplitLines result
  let clean0 := clean_loop lines
  let clean1 := if clean0 = "" then pyStrip ((pySplitLines result).headD "") else clean0
  "‏" ++ clean1 ++ "‏"

/-- Selection policy of the post-processing, written as the spec states it
(first clean line via `List.findSome?`, with the fallback order): used to
check the loop above against the amended policy wording. -/
def find_clean (lines : List String) : Option String :=
  lines.findSome? (fun l =>
    let t := pyStrip l
    if t ≠ "" ∧ line_is_clean t = true then some t else none)

/-- Declarative form of the selection: first non-empty clean line, else the
stripped first line of the stripped response. -/
def selectLine (raw : String) : String :=
  let lines := pySplitLines (pyStrip raw)
  match find_clean lines with
  | some l => l
  | none => pyStrip (lines.headD "")

/-- `translate_to_hebrew` (src/main.py:252-313).  `ctx` is the context
hint interpolated into the prompt; it does not influence post-processing.
The final line of the `try` branch is the source's
`return clean_result if clean_result else text`. -/
def translate_to_hebrew (text ctx : String) (gen : Except Unit String) : String :=
  match gen with
  | .error _ => text
  | .ok raw =>
    let clean_result := postProcessRaw raw
    if clean_result = "" then text else clean_result

/-! ### History fetcher -/

/-- One RSS entry as the fetcher consumes it: `entry.title`, the summary
already resolved by `getattr(entry, 'summary', entry.get('description',
''))` (src/main.py:336), and `entry.link`. -/
structure Entry where
  title : String
  summary : String
  link : String
deriving DecidableEq

/-- The dict returned by `get_history_today` (src/main.py:370-375). -/
structure HistoryItem where
  title : String
  summary : String
  link : String
  original_title : String
deriving DecidableEq

/-- Context hint for history titles (src/main.py:346). -/
def history_title_ctx : String := "כותרת של אירוע היסטורי"

/-- Context hint for history summaries (src/main.py:362). -/
def history_summary_ctx : String := "תקציר מפורט של אירוע היסטורי"

/-- Placeholder summary for entries with none (src/main.py:356). -/
def default_history_summary : String := "לא זמין תיאור לכתבה זו"

/-- Title fallback of src/main.py:350-351 (same shape at 427-428): when the
translator handed back the input unchanged, prefix the original with
`"[EN] "`. -/
def display_title (translated original : String) : String :=
  if translated = original then "[EN] " ++ original else translated

/-- Item construction for a winning entry (src/main.py:344-375): translate
the title with its context hint, apply the `[EN]` fallback, default and cap
the summary at 900 characters with a `"..."` ellipsis, translate it, apply
the `[EN]` fallback over the first 600 characters.  `tr` is the total
result of `translate_to_hebrew` for each (text, context) pair. -/
def build_history_item (tr : String → String → String) (e : Entry) : HistoryItem :=
  let title_hebrew := display_title (tr e.title history_title_ctx) e.title
  let summary := if e.summary = "" then default_history_summary else e.summary
  let longer_summary :=
    if 900 < summary.length then pyTake 900 summary ++ "..." else summary
  let summary_hebrew0 := tr longer_summary history_summary_ctx
  let summary_hebrew :=
    if summary_hebrew0 = longer_summary then "[EN] " ++ pyTake 600 summary ++ "..."
    else summary_hebrew0
  { title := title_hebrew, summary := summary_hebrew,
    link := e.link, original_title := e.title }

/-- An entry survives the scan when it is neither already recorded in the
ledger (src/main.py:331) nor filtered (src/main.py:337). -/
def acceptable_entry (db : List SentRecord) (src : String) (e : Entry) : Bool :=
  !(sent_query db e.title src) && !(should_filter_content e.title e.summary)

/-- The `for entry in feed.entries[:10]` scan (src/main.py:330-339): first
acceptable entry among the first ten, if any. -/
def find_acceptable (db : List SentRecord) (src : String)
    (entries : List Entry) : Option Entry :=
  (entries.take 10).find? (acceptable_entry db src)

/-- The session-context assignment at src/main.py:381. -/
def history_context (e : Entry) : String := "history " ++ e.title

/-- `get_history_today` (src/main.py:315-392).  `feedOf` is the black-box
`feedparser.parse` per source URL (`Except.error` = the per-source `try`
raised and the `except` advanced to the next source).  Sources are walked
in order; an empty feed advances; the first source whose scan yields an
acceptable entry wins: the item is built, the *original* title is marked
sent against that source URL, and the fetch stops.  Exhaustion returns
`none` (Python `None`).  The result pairs the item with the ledger state
after the call. -/
def get_history_today (tr : String → String → String) (now : String)
    (feedOf : String → Except Unit (List Entry)) (db : List SentRecord) :
    List String → Option HistoryItem × List SentRecord
  | [] => (none, db)
  | src :: rest =>
    match feedOf src with
    | .error _ => get_history_today tr now feedOf db rest
    | .ok entries =>
      if entries.isEmpty then get_history_today tr now feedOf db rest
      else
        match find_acceptable db src entries with
        | some e => (some (build_history_item tr e), mark_sent now db e.title src)
        | none => get_history_today tr now feedOf db rest

/-- A source outcome that raised or carried zero entries
(the two "advance to the next source" cases of src/main.py:385-389). -/
def source_failed_or_empty : Except Unit (List Entry) → Bool
  | .error _ => true
  | .ok es => es.isEmpty

/-- A source outcome that produces no winner: it raised, was empty, or its
scanned entries were all already-sent or filtered. -/
def source_no_winner (db : List SentRecord) (src : String) :
    Except Unit (List Entry) → Bool
  | .error _ => true
  | .ok es => (find_acceptable db src es).isNone

/-! ### Video relevance selector -/

/-- One YouTube search result (`snippet.title`, `snippet.description`,
`id.videoId`). -/
structure Video where
  title : String
  description : String
  videoId : String
deriving DecidableEq

/-- The dict returned by `search_youtube_video` (src/main.py:568-574). -/
structure VideoItem where
  title : String
  description : String
  url : String
  original_title : String
  search_query : String
deriving DecidableEq

/-- Generic fallback queries of src/main.py:525-531. -/
def video_fallback_queries : List String :=
  ["דוקומנטרי היסטוריה בעברית", "תוכן חינוכי מדע", "דוקומנטרי טבע",
   "educational documentary", "science documentary"]

/-- Python truthiness of an optional string attribute value. -/
def truthy : Option String → Bool
  | none => false
  | some s => !(decide (s = ""))

/-- Context-derived queries of src/main.py:516-522: first three words of
the stored context plus language/genre qualifiers. -/
def context_queries (ctx : String) : List String :=
  let base := String.intercalate " " ((pySplitWs ctx).take 3)
  [base ++ " דוקומנטרי בעברית", base ++ " documentary",
   base ++ " educational", "תוכן חינוכי " ++ base]

/-- Query selection of src/main.py:512-531.  `ctxAttr` models the
`self.current_content_context` attribute: `none` means the attribute was
never assigned (it is set only at src/main.py:381 and 458, never in
`__init__`), so evaluating `elif self.current_content_context:` raises
`AttributeError` — embedded as `Except.error`. -/
def build_search_queries (customQuery ctxAttr : Option String) :
    Except Unit (List String) :=
  if truthy customQuery then .ok [customQuery.getD ""]
  else
    match ctxAttr with
    | none => .error ()
    | some ctx =>
      if truthy (some ctx) then .ok (context_queries ctx)
      else .ok video_fallback_queries

/-- Disallowed-category keywords of src/main.py:555. -/
def skip_keywords : List String := ["trailer", "reaction", "live", "stream", "review"]

/-- Result filter of src/main.py:554-557: drop any video whose lowered
title contains a lowered skip keyword. -/
def video_acceptable (v : Video) : Bool :=
  !(skip_keywords.any (fun keyword => containsSub (pyLower keyword) (pyLower v.title)))

/-- Context hint for video titles (src/main.py:560). -/
def video_title_ctx : String := "כותרת של סרטון חינוכי"

/-- Context hint for video descriptions (src/main.py:565). -/
def video_desc_ctx : String := "תיאור סרטון חינוכי"

/-- Result construction of src/main.py:559-574 (description truncated to
200 characters before translation). -/
def build_video_item (tr : String → String → String) (q : String) (v : Video) :
    VideoItem :=
  { title := tr v.title video_title_ctx,
    description := tr (pyTake 200 v.description) video_desc_ctx,
    url := "https://www.youtube.com/watch?v=" ++ v.videoId,
    original_title := v.title,
    search_query := q }

/-- The `for search_query in search_queries` loop (src/main.py:533-577):
per query, a failed search call advances to the next query; otherwise the
first acceptable result wins; an exhausted result list advances. -/
def search_loop (tr : String → String → String)
    (searchFn : String → Except Unit (List Video)) : List String → Option VideoItem
  | [] => none
  | q :: rest =>
    match searchFn q with
    | .error _ => search_loop tr searchFn rest
    | .ok vids =>
      match vids.find? video_acceptable with
      | some v => some (build_video_item tr q v)
      | none => search_loop tr searchFn rest

/-- `search_youtube_video` (src/main.py:508-582): build the query list
(which may raise on the unset context attribute — caught by the outer
`except` at src/main.py:579, returning `None` before any search), then run
the search loop. -/
def search_youtube_video (tr : String → String → String)
    (searchFn : String → Except Unit (List Video))
    (customQuery ctxAttr : Option String) : Option VideoItem :=
  match build_search_queries customQuery ctxAttr with
  | .error _ => none
  | .ok qs => search_loop tr searchFn qs

/-! ### Session state machine

`ConversationHandler` wiring of src/main.py:925-933 with the handlers
`start` (587-640), `world_content_handler` (642-677),
`diamond_fact_handler` (679-715) and `video_content_handler` (717-768).
`WELCOME` is the pre-`/start` idle state; the handler-state constants
`WAITING_FOR_WORLD`, `WAITING_FOR_DIAMOND`, `WAITING_FOR_VIDEO` are the
spec's `HISTORY_SENT`, `WORLD_SENT`, `FACT_SENT`; `ConversationHandler.END`
is `COMPLETE`.  A trigger arriving in a state whose handler map does not
list it is dropped by the platform (state unchanged). -/

/-- Session stages. -/
inductive SessionState where
  | WELCOME
  | HISTORY_SENT
  | WORLD_SENT
  | FACT_SENT
  | COMPLETE
deriving DecidableEq

/-- External triggers: the `/start` command and the three callback
buttons. -/
inductive Trigger where
  | startCmd
  | worldContent
  | diamondFact
  | videoContent
deriving DecidableEq

/-- Outcome of the stage's selector call (`None` vs a content dict). -/
inductive Fetched where
  | found
  | notFound
deriving DecidableEq

/-- One conversation transition: each handler advances on content, ends the
conversation on `None` (src/main.py:637-640, 675-677, 713-715), and
`video_content_handler` ends either way (src/main.py:763). -/
def session_step : SessionState → Trigger → Fetched → SessionState
  | .WELCOME, .startCmd, .found => .HISTORY_SENT
  | .WELCOME, .startCmd, .notFound => .COMPLETE
  | .HISTORY_SENT, .worldContent, .found => .WORLD_SENT
  | .HISTORY_SENT, .worldContent, .notFound => .COMPLETE
  | .WORLD_SENT, .diamondFact, .found => .FACT_SENT
  | .WORLD_SENT, .diamondFact, .notFound => .COMPLETE
  | .FACT_SENT, .videoContent, _ => .COMPLETE
  | s, _, _ => s

/-- States visited when a fresh session is driven through the four triggers
in order, given each stage's selector outcome. -/
def session_trace (r1 r2 r3 r4 : Fetched) : List SessionState :=
  let s0 := SessionState.WELCOME
  let s1 := session_step s0 .startCmd r1
  let s2 := session_step s1 .worldContent r2
  let s3 := session_step s2 .diamondFact r3
  let s4 := session_step s3 .videoContent r4
  [s0, s1, s2, s3, s4]

/-! ### Helper lemmas -/

/-- Appending strings appends their character data. -/
theorem data_append (a b : String) : (a ++ b).data = a.data ++ b.data := rfl

/-- Character data of an RTL-mark-wrapped string. -/
theorem rlm_wrap_data (s : String) :
    ("‏" ++ s ++ "‏").data = '‏' :: (s.data ++ ['‏']) := by
  cases s with
  | mk d => rfl

/-- An RTL-mark-wrapped string is never empty (hence the
`return clean_result if clean_result else text` fallback at
src/main.py:308 is unreachable). -/
theorem rlm_wrap_ne (s : String) : "‏" ++ s ++ "‏" ≠ "" := by
  intro h
  have h2 := congrArg String.data h
  rw [rlm_wrap_data] at h2
  exact List.cons_ne_nil _ _ h2

/-- The imperative scan loop computes exactly the declarative first-clean-line
selection (with `""` as the not-found sentinel). -/
theorem clean_loop_eq (ls : List String) : clean_loop ls = (find_clean ls).getD "" := by
  induction ls with
  | nil => rfl
  | cons l ls ih =>
    by_cases hc : pyStrip l ≠ "" ∧ line_is_clean (pyStrip l) = true
    · simp [clean_loop, find_clean, hc]
    · simp only [clean_loop, find_clean, List.findSome?_cons, if_neg hc] at *
      exact ih

/-- A line returned by the clean-line scan is non-empty. -/
theorem find_clean_ne (ls : List String) (l : String)
    (h : find_clean ls = some l) : l ≠ "" := by
  induction ls with
  | nil => simp [find_clean] at h
  | cons a as ih =>
    by_cases hc : pyStrip a ≠ "" ∧ line_is_clean (pyStrip a) = true
    · simp only [find_clean, List.findSome?_cons, if_pos hc] at h
      cases h
      exact hc.1
    · simp only [find_clean, List.findSome?_cons, if_neg hc] at h
      exact ih h

/-- The source's post-processing equals the declarative selection policy
wrapped in RTL marks. -/
theorem postProcessRaw_eq (raw : String) :
    postProcessRaw raw = "‏" ++ selectLine raw ++ "‏" := by
  show ("‏" ++
      (if clean_loop (pySplitLines (pyStrip raw)) = ""
        then pyStrip ((pySplitLines (pyStrip raw)).headD "")
        else clean_loop (pySplitLines (pyStrip raw))) ++ "‏") = _
  rw [clean_loop_eq]
  cases h : find_clean (pySplitLines (pyStrip raw)) with
  | none => simp [selectLine, h]
  | some l => simp [selectLine, h, find_clean_ne _ _ h]

/-- On a successful black-box response the translator returns the selected
line wrapped in RTL marks. -/
theorem translate_ok_eq (text ctx raw : String) :
    translate_to_hebrew text ctx (Except.ok raw) = "‏" ++ selectLine raw ++ "‏" := by
  show (if postProcessRaw raw = "" then text else postProcessRaw raw) = _
  rw [postProcessRaw_eq]
  exact if_neg (rlm_wrap_ne _)

/-- Querying a concatenated table queries both parts. -/
theorem sent_query_append (db1 db2 : List SentRecord) (t s : String) :
    sent_query (db1 ++ db2) t s = (sent_query db1 t s || sent_query db2 t s) := by
  simp [sent_query, List.any_append]

/-- A duplicate insert is ignored. -/
theorem mark_sent_of_seen (n t s : String) (db : List SentRecord)
    (h : sent_query db t s = true) : mark_sent n db t s = db := by
  unfold mark_sent
  exact if_pos h

/-- After marking a pair, its fingerprint is in the table. -/
theorem sent_query_mark_self (n t s : String) (db : List SentRecord) :
    sent_query (mark_sent n db t s) t s = true := by
  unfold mark_sent
  by_cases h : sent_query db t s = true
  · rw [if_pos h]; exact h
  · rw [if_neg h, sent_query_append]
    simp [sent_query]

/-- Marks never remove fingerprints from the table. -/
theorem sent_query_mark_mono (n t' s' t s : String) (db : List SentRecord)
    (h : sent_query db t s = true) :
    sent_query (mark_sent n db t' s') t s = true := by
  unfold mark_sent
  by_cases h2 : sent_query db t' s' = true
  · rw [if_pos h2]; exact h
  · rw [if_neg h2, sent_query_append, h, Bool.true_or]

/-- Marking a pair with a different fingerprint does not change what the
query answers for this pair. -/
theorem sent_query_mark_other (n t' s' t s : String) (db : List SentRecord)
    (hne : fingerprint t' s' ≠ fingerprint t s) :
    sent_query (mark_sent n db t' s') t s = sent_query db t s := by
  unfold mark_sent
  by_cases h2 : sent_query db t' s' = true
  · rw [if_pos h2]
  · rw [if_neg h2, sent_query_append]
    have hone : sent_query [⟨fingerprint t' s', t', n, s'⟩] t s = false := by
      simp [sent_query, hne]
    rw [hone, Bool.or_false]

/-- A pair stays unseen across any run of marks whose fingerprints all
differ from its own. -/
theorem apply_marks_avoid (t s : String) :
    ∀ (ops : List (String × String × String)) (db : List SentRecord),
      sent_query db t s = false →
      (∀ op ∈ ops, fingerprint op.2.1 op.2.2 ≠ fingerprint t s) →
      sent_query (apply_marks db ops) t s = false := by
  intro ops
  induction ops with
  | nil => intro db h _; exact h
  | cons op rest ih =>
    intro db h hops
    obtain ⟨n, t', s'⟩ := op
    show sent_query (apply_marks (mark_sent n db t' s') rest) t s = false
    apply ih
    · rw [sent_query_mark_other n t' s' t s db (hops (n, t', s') (List.mem_cons_self _ _))]
      exact h
    · intro op hop
      exact hops op (List.mem_cons_of_mem _ hop)

/-- A pair stays seen across any further run of marks. -/
theorem apply_marks_keep (t s : String) :
    ∀ (ops : List (String × String × String)) (db : List SentRecord),
      sent_query db t s = true →
      sent_query (apply_marks db ops) t s = true := by
  intro ops
  induction ops with
  | nil => intro db h; exact h
  | cons op rest ih =>
    intro db h
    obtain ⟨n, t', s'⟩ := op
    exact ih _ (sent_query_mark_mono n t' s' t s db h)

/-- A fingerprint with no rows is not reported seen. -/
theorem count_zero_not_seen (t s : String) (db : List SentRecord)
    (h : count_fp (fingerprint t s) db = 0) : sent_query db t s = false := by
  unfold count_fp at h
  rw [List.countP_eq_zero] at h
  unfold sent_query
  rw [List.any_eq_false]
  intro r hr
  simpa using h r hr

/-- Marking a pair with no prior row for its fingerprint leaves exactly one
row for it. -/
theorem mark_sent_count (t s n : String) (db : List SentRecord)
    (h : count_fp (fingerprint t s) db = 0) :
    count_fp (fingerprint t s) (mark_sent n db t s) = 1 := by
  unfold mark_sent
  rw [if_neg (by simp [count_zero_not_seen t s db h])]
  unfold count_fp at *
  rw [List.countP_append, h]
  simp

/-- A source whose outcome raised or was empty is skipped. -/
theorem fetch_skip (tr : String → String → String) (now : String)
    (feedOf : String → Except Unit (List Entry)) (db : List SentRecord)
    (src : String) (rest : List String)
    (h : source_failed_or_empty (feedOf src) = true) :
    get_history_today tr now feedOf db (src :: rest) =
      get_history_today tr now feedOf db rest := by
  cases hf : feedOf src with
  | error u => simp [get_history_today, hf]
  | ok es =>
    rw [hf] at h
    simp only [source_failed_or_empty, List.isEmpty_eq_true] at h
    subst h
    simp [get_history_today, hf]

/-- A source whose scan yields a winner ends the fetch with the item built
from that winner and the winner marked sent. -/
theorem fetch_hit (tr : String → String → String) (now : String)
    (feedOf : String → Except Unit (List Entry)) (db : List SentRecord)
    (src : String) (rest : List String) (entries : List Entry) (e : Entry)
    (hf : feedOf src = Except.ok entries)
    (he : find_acceptable db src entries = some e) :
    get_history_today tr now feedOf db (src :: rest) =
      (some (build_history_item tr e), mark_sent now db e.title src) := by
  cases entries with
  | nil => simp [find_acceptable] at he
  | cons a as => simp [get_history_today, hf, he]

/-! ### Claim theorems -/

/-- C1: over any ordered source list, whenever every source before `src`
raised or returned zero entries and `src`'s scan (first ten retrieved
entries) yields a first entry that is neither filtered nor recorded as
seen, the fetch returns the item built from that entry; and when every
configured source raises, is empty, or has only filtered/seen scanned
entries, the fetch returns `none` (Python `None`) instead of raising. -/
theorem history_fetch_resilient (tr : String → String → String) (now : String)
    (feedOf : String → Except Unit (List Entry)) (db : List SentRecord) :
    (∀ (pre : List String) (src : String) (post : List String)
        (entries : List Entry) (e : Entry),
      (∀ s ∈ pre, source_failed_or_empty (feedOf s) = true) →
      feedOf src = Except.ok entries →
      find_acceptable db src entries = some e →
      (get_history_today tr now feedOf db (pre ++ src :: post)).1 =
        some (build_history_item tr e)) ∧
    (∀ srcs : List String,
      (∀ s ∈ srcs, source_no_winner db s (feedOf s) = true) →
      (get_history_today tr now feedOf db srcs).1 = none) := by
  constructor
  · intro pre
    induction pre with
    | nil =>
      intro src post entries e _ hf he
      rw [List.nil_append, fetch_hit tr now feedOf db src post entries e hf he]
    | cons s pre ih =>
      intro src post entries e hpre hf he
      rw [List.cons_append,
        fetch_skip tr now feedOf db s _ (hpre s (List.mem_cons_self s pre))]
      exact ih src post entries e (fun x hx => hpre x (List.mem_cons_of_mem s hx)) hf he
  · intro srcs
    induction srcs with
    | nil => intro _; rfl
    | cons s rest ih =>
      intro h
      have hs := h s (List.mem_cons_self s rest)
      have hrest := fun x hx => h x (List.mem_cons_of_mem s hx)
      cases hf : feedOf s with
      | error u =>
        rw [fetch_skip tr now feedOf db s rest (by rw [hf]; rfl)]
        exact ih hrest
      | ok es =>
        rw [hf] at hs
        simp only [source_no_winner, Option.isNone_iff_eq_none] at hs
        cases es with
        | nil =>
          rw [fetch_skip tr now feedOf db s rest (by rw [hf]; rfl)]
          exact ih hrest
        | cons a as =>
          simp only [get_history_today, hf, List.isEmpty_cons, hs]
          exact ih hrest

/-- C1 witness: two sources, the first raising, the second carrying one
clean unseen entry: the fetch returns the item built from that entry. -/
theorem history_fetch_resilient_witness :
    (get_history_today (fun t _ => t) "2024-01-03"
      (fun s => if s = "bad" then Except.error ()
        else Except.ok [⟨"Moon landing", "Apollo 11 landed.", "http://x"⟩])
      [] ["bad", "good"]).1 =
      some (build_history_item (fun t _ => t)
        ⟨"Moon landing", "Apollo 11 landed.", "http://x"⟩) :=
  (history_fetch_resilient (fun t _ => t) "2024-01-03"
      (fun s => if s = "bad" then Except.error ()
        else Except.ok [⟨"Moon landing", "Apollo 11 landed.", "http://x"⟩]) []).1
    ["bad"] "good" [] [⟨"Moon landing", "Apollo 11 landed.", "http://x"⟩]
    ⟨"Moon landing", "Apollo 11 landed.", "http://x"⟩
    (by decide) rfl (by decide)

/-- C2 counterexample: on the raw response `"Hello"` (a single line with no
boilerplate marker) the claimed policy returns the line `"Hello"` itself,
but the code returns it wrapped in RTL marks (U+200F), so the
post-processing does not follow the claimed policy verbatim. -/
theorem translate_postprocess_counterexample :
    translate_to_hebrew "שלום" "" (Except.ok "Hello") = "‏Hello‏" ∧
    translate_to_hebrew "שלום" "" (Except.ok "Hello") ≠ "Hello" := by decide

/-- C2 (amended): on every successful raw response the post-processing
returns, wrapped in RTL marks (U+200F) on both sides, the selection: strip
the response, split it into lines, take the first line whose stripped form
is non-empty and contains no boilerplate marker; if every line is empty or
marked, fall back to the stripped first line of the stripped response
(the first non-empty line whenever the response has one); an empty or
whitespace-only response yields the two RTL marks alone rather than being
discarded. -/
theorem translate_postprocess_amended (text ctx raw : String) :
    translate_to_hebrew text ctx (Except.ok raw) = "‏" ++ selectLine raw ++ "‏" :=
  translate_ok_eq text ctx raw

/-- C3: when the underlying translation call raises, `translate_to_hebrew`
catches the exception and returns the original input text unchanged, so no
error escapes its boundary. -/
theorem translate_error_returns_input (text ctx : String) :
    translate_to_hebrew text ctx (Except.error ()) = text := rfl

/-- C4 counterexample: a successful translation's output CAN coincide with
the input: with input text `"‏Hello‏"` and successful raw
response `"Hello"`, the output equals the input although the underlying
call did not fail, so equality does not hold exactly on failure. -/
theorem translate_equality_detection_counterexample :
    translate_to_hebrew "‏Hello‏" "" (Except.ok "Hello") =
      "‏Hello‏" := by decide

/-- C4 (amended): failure returns the input; a successful output always
begins with the RTL mark U+200F, so for any input that does not begin with
U+200F the output equals the input exactly when the call failed; and the
history/world callers' title fallback (`[EN] `-prefix on detected equality)
never lets the caller-visible title equal the raw untranslated title. -/
theorem translate_equality_detection_amended (text ctx : String) :
    translate_to_hebrew text ctx (Except.error ()) = text ∧
    (∀ raw : String, text.data.head? ≠ some '‏' →
      translate_to_hebrew text ctx (Except.ok raw) ≠ text) ∧
    (∀ translated original : String, display_title translated original ≠ original) := by
  refine ⟨rfl, ?_, ?_⟩
  · intro raw hhead heq
    apply hhead
    rw [← heq, translate_ok_eq, rlm_wrap_data]
    rfl
  · intro t o
    unfold display_title
    by_cases h : t = o
    · rw [if_pos h]
      intro habs
      have h2 := congrArg (fun x : String => x.data.length) habs
      simp only [data_append] at h2
      simp [List.length_append] at h2
      omega
    · rw [if_neg h]
      exact h

/-- C4 witness: at input `"Hello"` (which does not start with U+200F),
failure returns it unchanged, success never returns it, and the caller
fallback renames a detected-equal title. -/
theorem translate_equality_detection_witness :
    translate_to_hebrew "Hello" "" (Except.error ()) = "Hello" ∧
    translate_to_hebrew "Hello" "" (Except.ok "שלום") ≠ "Hello" ∧
    display_title "Hello" "Hello" ≠ "Hello" :=
  ⟨(translate_equality_detection_amended "Hello" "").1,
   (translate_equality_detection_amended "Hello" "").2.1 "שלום" (by decide),
   (translate_equality_detection_amended "Hello" "").2.2 "Hello" "Hello"⟩

/-- C5 counterexample: the pair `("x", "y_z")` was never marked, yet after
marking the distinct pair `("x_y", "z")` (same fingerprint `"x_y_z"`) the
ledger reports it as seen — so `has_seen` is not false before the pair's
own first `mark_seen`. -/
theorem has_seen_before_mark_counterexample :
    sent_query (apply_marks [] [("2024-01-01", "x_y", "z")]) "x" "y_z" = true ∧
    ("x", "y_z") ≠ ("x_y", "z") := by decide

/-- C5 (amended): for every pair — unicode/RTL titles included —
`has_seen(title, source)` is false before the first
`mark_seen(title, source)` provided no previously marked pair carries the
same fingerprint string `title + "_" + source`, and it is true on every
call after the pair's own first `mark_seen`, whatever is marked in
between. -/
theorem has_seen_mark_amended (t s : String) :
    (∀ ops : List (String × String × String),
      (∀ op ∈ ops, fingerprint op.2.1 op.2.2 ≠ fingerprint t s) →
      sent_query (apply_marks [] ops) t s = false) ∧
    (∀ (n : String) (db : List SentRecord)
        (ops : List (String × String × String)),
      sent_query (apply_marks (mark_sent n db t s) ops) t s = true) := by
  constructor
  · intro ops h
    exact apply_marks_avoid t s ops [] rfl h
  · intro n db ops
    exact apply_marks_keep t s ops _ (sent_query_mark_self n t s db)

/-- C5 witness: a Hebrew (RTL) title is unseen after unrelated marks and
seen after its own mark followed by further unrelated marks. -/
theorem has_seen_mark_amended_witness :
    sent_query (apply_marks [] [("d1", "שלום", "מקור")]) "מלחמה" "hist" = false ∧
    sent_query (apply_marks (mark_sent "d2" [] "מלחמה" "hist")
      [("d3", "חדשות", "s2")]) "מלחמה" "hist" = true :=
  ⟨(has_seen_mark_amended "מלחמה" "hist").1 [("d1", "שלום", "מקור")] (by decide),
   (has_seen_mark_amended "מלחמה" "hist").2 "d2" [] [("d3", "חדשות", "s2")]⟩

/-- C6: marking the same (title, source) twice is the identity on the
second call (duplicate insert treated as success), and starting from a
table with no row for the fingerprint it leaves exactly one row for it. -/
theorem mark_sent_idempotent (t s n1 n2 : String) (db : List SentRecord) :
    mark_sent n2 (mark_sent n1 db t s) t s = mark_sent n1 db t s ∧
    (count_fp (fingerprint t s) db = 0 →
      count_fp (fingerprint t s)
        (mark_sent n2 (mark_sent n1 db t s) t s) = 1) := by
  have hidem := mark_sent_of_seen n2 t s (mark_sent n1 db t s)
    (sent_query_mark_self n1 t s db)
  refine ⟨hidem, fun h0 => ?_⟩
  rw [hidem]
  exact mark_sent_count t s n1 db h0

/-- C6 witness: double-marking a concrete Hebrew title from the empty table
is idempotent and leaves one row. -/
theorem mark_sent_idempotent_witness :
    mark_sent "d2" (mark_sent "d1" [] "כותרת" "src") "כותרת" "src" =
      mark_sent "d1" [] "כותרת" "src" ∧
    count_fp (fingerprint "כותרת" "src")
      (mark_sent "d2" (mark_sent "d1" [] "כותרת" "src") "כותרת" "src") = 1 :=
  ⟨(mark_sent_idempotent "כותרת" "src" "d1" "d2" []).1,
   (mark_sent_idempotent "כותרת" "src" "d1" "d2" []).2 (by decide)⟩

/-- C7: a session driven through its four triggers with content available
visits exactly WELCOME, HISTORY_SENT, WORLD_SENT, FACT_SENT, COMPLETE in
that order with no skip or repeat, and in every state whose trigger runs a
selector, a `None` selector result moves the session directly to the
terminal COMPLETE state. -/
theorem session_state_machine_order :
    session_trace .found .found .found .found =
      [SessionState.WELCOME, SessionState.HISTORY_SENT, SessionState.WORLD_SENT,
        SessionState.FACT_SENT, SessionState.COMPLETE] ∧
    (session_trace .found .found .found .found).Nodup ∧
    session_step .WELCOME .startCmd .notFound = .COMPLETE ∧
    session_step .HISTORY_SENT .worldContent .notFound = .COMPLETE ∧
    session_step .WORLD_SENT .diamondFact .notFound = .COMPLETE ∧
    session_step .FACT_SENT .videoContent .notFound = .COMPLETE := by decide

/-- C8 (code behavior at the failing input): with no custom query and the
`current_content_context` attribute never assigned, the attribute access
raises, the outer handler returns `None`, and no search is consulted —
for EVERY search backend, even one that would return acceptable results
for every query — instead of searching the generic fallback queries as
the claim (and the dead fallback list at src/main.py:525-531) intends. -/
theorem video_search_no_context_returns_none :
    (∀ (tr : String → String → String)
        (searchFn : String → Except Unit (List Video)),
      search_youtube_video tr searchFn none none = none) ∧
    build_search_queries none none = Except.error () :=
  ⟨fun _ _ => rfl, rfl⟩

/-- C9: the ledger fails open — a storage error during `is_article_sent`
yields `False` (treated as not seen) instead of raising, and a storage
error during `mark_article_sent` is swallowed, returning normally with the
table unchanged. -/
theorem ledger_fails_open (title source now : String) (db : List SentRecord) :
    is_article_sent (Except.error ()) title source = false ∧
    mark_article_sent true now db title source = db := ⟨rfl, rfl⟩

/-- C10: the fingerprint `title + "_" + source` is not injective on pairs
even with a collision-free hash: the distinct pairs `("a_b", "c")` and
`("a", "b_c")` share it, and marking one makes the ledger report the other
as seen although that pair was never marked. -/
theorem fingerprint_not_injective :
    fingerprint "a_b" "c" = fingerprint "a" "b_c" ∧
    ("a_b", "c") ≠ ("a", "b_c") ∧
    sent_query (mark_sent "2024-01-02" [] "a" "b_c") "a_b" "c" = true := by decide

end DadNews
